import Mathlib

/-!
# Verification of the MG-Nexus profile-resolution backend

Shallow embedding of `src/backend/server.js`: the per-platform profile resolvers
(GitHub, Twitter, Instagram, LinkedIn, Reddit, TikTok, Spotify), the fuzzy string
matcher `compareDistance`, the curated Spotify dataset, and the synthetic profile
generators.  Each network-bound handler is modelled as a pure function of the
outcome of its live call(s) and of a stream of random draws; `Math.floor(Math.random() * n)`
is modelled as `g k % n` where `g : Rng` is the stream and `k` a per-call-site index.
-/

/-- A raw stream of random values.  Distinct call sites of `Math.random()` read
distinct indices, modelling a fresh independent draw per call. -/
abbrev Rng := Nat → Nat

/-- The all-zeros random stream, used to evaluate the generators on concrete inputs. -/
def gZero : Rng := fun _ => 0

/-! ## The string similarity matcher (server.js:655-671)

`compareDistance` is the inline Levenshtein implementation inside the Spotify
handler's `closeMatches` filter: it swaps the operands so the first is the longer,
then runs the classic two-row dynamic program.  The specification-side definition
is `lev`, the textbook edit-distance recurrence. -/

/-- Classic Levenshtein edit distance with unit costs: the textbook recurrence
consuming the heads of the two lists (specification-side definition). -/
def lev : List Char → List Char → Nat
  | [], ys => ys.length
  | _ :: xs, [] => xs.length + 1
  | x :: xs, y :: ys =>
      min (lev xs (y :: ys) + 1)
        (min (lev (x :: xs) ys + 1) (lev xs ys + (if x = y then 0 else 1)))
termination_by xs ys => xs.length + ys.length
decreasing_by all_goals (simp [List.length_cons]; try omega)

theorem lev_nil_left (B : List Char) : lev [] B = B.length := by
  simp [lev]

theorem lev_nil_right (A : List Char) : lev A [] = A.length := by
  cases A <;> simp [lev]

theorem lev_cons_cons (x y : Char) (xs ys : List Char) :
    lev (x :: xs) (y :: ys) =
      min (lev xs (y :: ys) + 1)
        (min (lev (x :: xs) ys + 1) (lev xs ys + (if x = y then 0 else 1))) := by
  rw [lev]

/-- One pass of the inner `for (let j ...)` loop (server.js:662-667): `x` is `s1[i]`,
the first list argument is the not-yet-consumed part of `s2`, the second holds
`previousRow[j], previousRow[j+1], ...`, and `cur` is `currentRow[j]` (the value
pushed last).  Returns the rest of `currentRow`. -/
def rowStep (x : Char) : List Char → List Nat → Nat → List Nat
  | [], _, _ => []
  | y :: ys, p0 :: p1 :: ps, cur =>
      let next := min (p1 + 1) (min (cur + 1) (p0 + (if x ≠ y then 1 else 0)))
      next :: rowStep x ys (p1 :: ps) next
  | _ :: _, _, _ => []

/-- The outer `for (let i ...)` loop (server.js:660-669): consume `s1` one character
at a time, replacing `previousRow` by the freshly built `currentRow`; `i` is the
row counter (`currentRow` starts as `[i + 1]`). -/
def runRows : List Char → List Char → List Nat → Nat → List Nat
  | [], _, prev, _ => prev
  | x :: xs, s2, prev, i => runRows xs s2 ((i + 1) :: rowStep x s2 prev (i + 1)) (i + 1)

/-- Body of `compareDistance` after the operand swap (server.js:657-670):
empty second operand returns the first operand's length, otherwise run the DP
starting from `previousRow = [0, 1, ..., s2.length]` and read `previousRow[s2.length]`. -/
def compareDistanceGo (s1 s2 : List Char) : Nat :=
  if s2.length = 0 then s1.length
  else (runRows s1 s2 (List.range (s2.length + 1)) 0).getD s2.length 0

/-- Embedding of `compareDistance` (server.js:655-671): recursion-free embedding of the JS
function, including the single operand swap `if (s1.length < s2.length)`. -/
def compareDistance (s1 s2 : String) : Nat :=
  if s1.length < s2.length then compareDistanceGo s2.data s1.data
  else compareDistanceGo s1.data s2.data

/-- The row of distances from `A` to the reversals of the successive prefixes of the
second operand: entry `j` is `lev A ((first j chars) reversed ++ B)`. -/
def levRow (A B : List Char) : List Char → List Nat
  | [] => [lev A B]
  | y :: rest => lev A B :: levRow A (y :: B) rest

theorem levRow_head (A B rest : List Char) :
    levRow A B rest = lev A B :: (levRow A B rest).tail := by
  cases rest <;> simp [levRow]

theorem rowStep_spec (x : Char) (A : List Char) :
    ∀ (rest B : List Char),
      rowStep x rest (levRow A B rest) (lev (x :: A) B) = (levRow (x :: A) B rest).tail := by
  intro rest
  induction rest with
  | nil => intro B; rfl
  | cons y rest ih =>
      intro B
      have ht : levRow A (y :: B) rest = lev A (y :: B) :: (levRow A (y :: B) rest).tail :=
        levRow_head A (y :: B) rest
      have hnext :
          min (lev A (y :: B) + 1) (min (lev (x :: A) B + 1) (lev A B + (if x ≠ y then 1 else 0)))
            = lev (x :: A) (y :: B) := by
        rw [lev_cons_cons]
        congr 2
        simp [ite_not]
      simp only [levRow, List.tail_cons]
      rw [ht]
      simp only [rowStep]
      rw [hnext, ← ht, ih (y :: B)]
      exact (levRow_head (x :: A) (y :: B) rest).symm

theorem runRows_spec (s2 : List Char) :
    ∀ (xs A : List Char),
      runRows xs s2 (levRow A [] s2) A.length = levRow (xs.reverse ++ A) [] s2 := by
  intro xs
  induction xs with
  | nil => intro A; simp [runRows]
  | cons x xs ih =>
      intro A
      rw [runRows]
      have h1 : A.length + 1 = lev (x :: A) [] := by
        simp [lev_nil_right]
      rw [h1, rowStep_spec x A s2 [], ← levRow_head (x :: A) [] s2]
      have h2 := ih (x :: A)
      simp only [List.length_cons] at h2
      rw [h1] at h2
      rw [h2, List.reverse_cons, List.append_assoc, List.singleton_append]

theorem levRow_getD (A : List Char) :
    ∀ (rest B : List Char),
      (levRow A B rest).getD rest.length 0 = lev A (rest.reverse ++ B) := by
  intro rest
  induction rest with
  | nil => intro B; simp [levRow]
  | cons y rest ih =>
      intro B
      simp only [levRow, List.length_cons, List.getD_cons_succ, ih (y :: B),
        List.reverse_cons, List.append_assoc, List.singleton_append]

theorem levRow_range (B : List Char) :
    ∀ rest, levRow [] B rest = List.range' B.length (rest.length + 1) := by
  intro rest
  induction rest generalizing B with
  | nil => simp [levRow, lev_nil_left, List.range']
  | cons y rest ih =>
      have := ih (y :: B)
      simp only [List.length_cons] at this
      simp [levRow, lev_nil_left, this, List.range'_succ]

theorem compareDistanceGo_spec (s1 s2 : List Char) :
    compareDistanceGo s1 s2 = lev s1.reverse s2.reverse := by
  unfold compareDistanceGo
  split
  · next h =>
      have h2 : s2 = [] := List.length_eq_zero.mp h
      subst h2
      simp [lev_nil_right]
  · next h =>
      have h0 : List.range (s2.length + 1) = levRow ([] : List Char) [] s2 := by
        rw [levRow_range]
        simp [List.range_eq_range']
      rw [h0]
      have h1 := runRows_spec s2 s1 []
      simp only [List.length_nil, List.append_nil] at h1
      rw [h1]
      have h2 := levRow_getD s1.reverse s2 []
      simp only [List.append_nil] at h2
      exact h2

/-- The head-consuming recurrence also holds when appending at the tails: the
structural exchange identity behind reversal-invariance of the edit distance. -/
theorem lev_snoc (a b : Char) :
    ∀ (A B : List Char),
      lev (A ++ [a]) (B ++ [b]) =
        min (lev A (B ++ [b]) + 1)
          (min (lev (A ++ [a]) B + 1) (lev A B + (if a = b then 0 else 1))) := by
  intro A
  induction A with
  | nil =>
      intro B
      induction B with
      | nil =>
          simpa using lev_cons_cons a b [] []
      | cons y B ihB =>
          have e1 := lev_cons_cons a y [] (B ++ [b])
          have e2 := lev_cons_cons a y [] B
          simp only [List.nil_append] at ihB e1 e2 ⊢
          simp only [List.cons_append]
          rw [e1, ihB, e2]
          simp only [lev_nil_left, List.length_append, List.length_cons, List.length_nil]
          generalize (if a = y then 0 else 1) = cay
          generalize (if a = b then 0 else 1) = cab
          generalize lev [a] B = L
          apply le_antisymm <;> simp only [le_min_iff, min_le_iff] <;> omega
  | cons x A ihA =>
      intro B
      induction B with
      | nil =>
          have e1 := lev_cons_cons x b (A ++ [a]) []
          have e2 := lev_cons_cons x b A []
          have e3 := ihA ([] : List Char)
          simp only [List.nil_append] at e3
          simp only [List.cons_append, List.nil_append] at e1 ⊢
          rw [e1, e3, e2]
          simp only [lev_nil_right, List.length_append, List.length_cons, List.length_nil]
          generalize (if x = b then 0 else 1) = cxb
          generalize (if a = b then 0 else 1) = cab
          generalize lev A [b] = K
          apply le_antisymm <;> simp only [le_min_iff, min_le_iff] <;> omega
      | cons y B ihB =>
          have hA := ihA (y :: B)
          have hA2 := ihA B
          have c1 := lev_cons_cons x y (A ++ [a]) (B ++ [b])
          have c2 := lev_cons_cons x y A (B ++ [b])
          have c3 := lev_cons_cons x y (A ++ [a]) B
          have c4 := lev_cons_cons x y A B
          simp only [List.cons_append] at hA hA2 ihB ⊢
          rw [c1, hA, ihB, hA2, c2, c3, c4]
          generalize (if x = y then 0 else 1) = cxy
          generalize (if a = b then 0 else 1) = cab
          generalize lev A (y :: (B ++ [b])) = p1
          generalize lev (A ++ [a]) (y :: B) = p2
          generalize lev A (y :: B) = p3
          generalize lev (x :: A) (B ++ [b]) = q1
          generalize lev (x :: (A ++ [a])) B = q2
          generalize lev (x :: A) B = q3
          generalize lev A (B ++ [b]) = r1
          generalize lev (A ++ [a]) B = r2
          generalize lev A B = r3
          apply le_antisymm <;> simp only [le_min_iff, min_le_iff] <;> omega

/-- Symmetry of the classic edit distance. -/
theorem lev_symm (A B : List Char) : lev A B = lev B A := by
  have key : ∀ (n : Nat) (A B : List Char), A.length + B.length ≤ n → lev A B = lev B A := by
    intro n
    induction n with
    | zero =>
        intro A B h
        have hA : A = [] := List.length_eq_zero.mp (by omega)
        have hB : B = [] := List.length_eq_zero.mp (by omega)
        subst hA; subst hB; rfl
    | succ n ih =>
        intro A B h
        match A, B with
        | [], B => simp [lev_nil_left, lev_nil_right]
        | x :: A, [] => simp [lev_nil_left, lev_nil_right]
        | x :: A, y :: B =>
            simp only [List.length_cons] at h
            rw [lev_cons_cons, lev_cons_cons]
            rw [ih A (y :: B) (by simp only [List.length_cons]; omega),
              ih (x :: A) B (by simp only [List.length_cons]; omega),
              ih A B (by omega)]
            have hc : (if x = y then 0 else 1) = (if y = x then 0 else 1) := by
              by_cases hxy : x = y <;> simp [hxy, Ne.symm, eq_comm]
            rw [hc]
            generalize (if y = x then 0 else 1) = c
            generalize lev (y :: B) A = u
            generalize lev B (x :: A) = v
            generalize lev B A = w
            apply le_antisymm <;> simp only [le_min_iff, min_le_iff] <;> omega
  exact key (A.length + B.length) A B le_rfl

/-- Reversal-invariance of the classic edit distance. -/
theorem lev_reverse (A B : List Char) : lev A.reverse B.reverse = lev A B := by
  have key : ∀ (n : Nat) (A B : List Char), A.length + B.length ≤ n →
      lev A.reverse B.reverse = lev A B := by
    intro n
    induction n with
    | zero =>
        intro A B h
        have hA : A = [] := List.length_eq_zero.mp (by omega)
        have hB : B = [] := List.length_eq_zero.mp (by omega)
        subst hA; subst hB; rfl
    | succ n ih =>
        intro A B h
        match A, B with
        | [], B => simp [lev_nil_left]
        | x :: A, [] => simp [lev_nil_right]
        | x :: A, y :: B =>
            simp only [List.length_cons] at h
            rw [List.reverse_cons, List.reverse_cons, lev_snoc]
            rw [show B.reverse ++ [y] = (y :: B).reverse from (List.reverse_cons y B).symm,
              show A.reverse ++ [x] = (x :: A).reverse from (List.reverse_cons x A).symm]
            rw [ih A (y :: B) (by simp only [List.length_cons]; omega),
              ih (x :: A) B (by simp only [List.length_cons]; omega),
              ih A B (by omega)]
            rw [lev_cons_cons]
  exact key (A.length + B.length) A B le_rfl

theorem compareDistanceGo_eq_lev (s1 s2 : List Char) : compareDistanceGo s1 s2 = lev s1 s2 := by
  rw [compareDistanceGo_spec, lev_reverse]

/-- The embedded `compareDistance` computes the classic edit distance of the two
strings, whichever operand is longer. -/
theorem compareDistance_eq_lev (s1 s2 : String) : compareDistance s1 s2 = lev s1.data s2.data := by
  unfold compareDistance
  split
  · rw [compareDistanceGo_eq_lev, lev_symm]
  · rw [compareDistanceGo_eq_lev]

theorem lev_self (A : List Char) : lev A A = 0 := by
  induction A with
  | nil => simp [lev_nil_left]
  | cons x A ih => rw [lev_cons_cons]; simp [ih]

theorem lev_eq_zero_iff : ∀ (A B : List Char), lev A B = 0 ↔ A = B := by
  intro A
  induction A with
  | nil =>
      intro B
      cases B with
      | nil => simp [lev_nil_left]
      | cons y B => simp [lev_nil_left]
  | cons x A ih =>
      intro B
      cases B with
      | nil => simp [lev_nil_right]
      | cons y B =>
          rw [lev_cons_cons]
          simp only [Nat.min_eq_zero_iff, Nat.add_eq_zero, Nat.succ_ne_zero, false_and,
            false_or, List.cons.injEq]
          constructor
          · rintro ⟨h0, hc⟩
            have hxy : x = y := by
              by_cases hxy : x = y
              · exact hxy
              · simp [hxy] at hc
            exact ⟨hxy, (ih B).mp h0⟩
          · rintro ⟨hxy, hAB⟩
            exact ⟨(ih B).mpr hAB, by simp [hxy]⟩

theorem levenshtein_default_nil_left (B : List Char) :
    levenshtein Levenshtein.defaultCost ([] : List Char) B = B.length := by
  induction B with
  | nil => simp
  | cons y B ih => rw [levenshtein_nil_cons, ih]; simp [Levenshtein.defaultCost, Nat.add_comm]

theorem levenshtein_default_nil_right (A : List Char) :
    levenshtein Levenshtein.defaultCost A ([] : List Char) = A.length := by
  induction A with
  | nil => simp
  | cons x A ih => rw [levenshtein_cons_nil, ih]; simp [Levenshtein.defaultCost, Nat.add_comm]

/-- The classic recurrence `lev` agrees with Mathlib's `levenshtein` at the default
unit-cost structure. -/
theorem lev_eq_levenshtein (A B : List Char) :
    lev A B = levenshtein Levenshtein.defaultCost A B := by
  have key : ∀ (n : Nat) (A B : List Char), A.length + B.length ≤ n →
      lev A B = levenshtein Levenshtein.defaultCost A B := by
    intro n
    induction n with
    | zero =>
        intro A B h
        have hA : A = [] := List.length_eq_zero.mp (by omega)
        have hB : B = [] := List.length_eq_zero.mp (by omega)
        subst hA; subst hB; simp [lev_nil_left]
    | succ n ih =>
        intro A B h
        match A, B with
        | [], B => rw [lev_nil_left, levenshtein_default_nil_left]
        | x :: A, [] => rw [lev_nil_right, levenshtein_default_nil_right]
        | x :: A, y :: B =>
            simp only [List.length_cons] at h
            rw [lev_cons_cons, levenshtein_cons_cons]
            rw [ih A (y :: B) (by simp only [List.length_cons]; omega),
              ih (x :: A) B (by simp only [List.length_cons]; omega),
              ih A B (by omega)]
            simp [Levenshtein.defaultCost, Nat.add_comm]
  exact key (A.length + B.length) A B le_rfl

/-! ## The uniform response envelope

`res.json(...)` bodies are modelled exactly, distinguishing an omitted `profile`
key (`res.json({ exists: false })`) from an explicit `profile: null`
(`profile: exists ? {...} : null`).  A `res.status(500).json({ error })` is
`Response.serverError`. -/

/-- A repository summary in the GitHub profile (server.js:43-49). -/
structure RepoSummary where
  name : String
  description : Option String
  url : String
  stars : Nat
  language : Option String
deriving DecidableEq

/-- A recent tweet in the Twitter profile (server.js:120-123). -/
structure Tweet where
  text : String
  date : String
deriving DecidableEq

/-- A generated or curated album (server.js:755-766). -/
structure Album where
  name : String
  release_date : String
  total_tracks : Nat
  image_url : String
deriving DecidableEq

/-- A generated or curated top track (server.js:773-779). -/
structure Track where
  name : String
  popularity : Nat
  album : String
  release_date : String
  duration_ms : Nat
deriving DecidableEq

/-- A generated or curated playlist (server.js:833-844). -/
structure Playlist where
  name : String
  followers : Nat
  total_tracks : Nat
  image_url : String
deriving DecidableEq

/-- The union of all profile shapes the handlers emit.  A field that a given
JSON profile object does not carry stays at its default (`none`, `[]`, `false`);
`Option` fields model keys that may be absent or null in the JSON.
Reddit's `created_at` (`new Date(ms).toISOString()`) is modelled by the
millisecond value itself (`created_at_ms`); date formatting is third-party. -/
structure Profile where
  username : String
  name : Option String := none
  followers : Option Nat := none
  following : Option Nat := none
  tweets : Option Nat := none
  posts : Option Nat := none
  karma : Option Nat := none
  link_karma : Option Nat := none
  comment_karma : Option Nat := none
  likes : Option Nat := none
  avatar_url : Option String := none
  public_repos : Option Nat := none
  bio : Option String := none
  company : Option String := none
  location : Option String := none
  created_at : Option String := none
  created_at_ms : Option Nat := none
  joined : Option String := none
  url : Option String := none
  estimated_connections : Option Nat := none
  checked : Bool := false
  is_gold : Option Bool := none
  description : Option String := none
  real_api : Bool := false
  recent_repos : List RepoSummary := []
  recent_tweets : List Tweet := []
  popularity : Option Nat := none
  monthly_listeners : Option Nat := none
  image_url : Option String := none
  type : Option String := none
  verified : Option Bool := none
  genres : List String := []
  top_tracks : List Track := []
  albums : List Album := []
  playlists : List Playlist := []
  external_url : Option String := none
  note : Option String := none
  scraped : Bool := false
  simulated : Bool := false
deriving DecidableEq

/-- The `profile` key of a response body: absent, explicit `null`, or an object. -/
inductive ProfileField where
  | omitted : ProfileField
  | null : ProfileField
  | value : Profile → ProfileField
deriving DecidableEq

/-- The uniform envelope `{ exists: bool, profile?: Profile | null }`. -/
structure ProfileResult where
  «exists» : Bool
  profile : ProfileField
deriving DecidableEq

/-- A handler's HTTP answer: `res.json(body)` (status 200) or
`res.status(500).json({ error: msg })`. -/
inductive Response where
  | ok : ProfileResult → Response
  | serverError : String → Response
deriving DecidableEq

/-- Outcome of one live network call: a parsed 2xx payload, a thrown HTTP error
carrying `error.response.status`, or a thrown failure with no response object
(network error, timeout, aborted connection). -/
inductive Outcome (α : Type) where
  | success : α → Outcome α
  | httpError : Nat → Outcome α
  | networkFailure : Outcome α
deriving DecidableEq

/-! ## String utilities shared by the handlers -/

/-- ASCII whitespace, the `\s` class as used by the handlers' regexes and the
normalizer (`replace(/\s+/g, '')`); non-ASCII whitespace does not occur in the
embedded data. -/
def isWs (c : Char) : Bool := c = ' ' || c = '\t' || c = '\n' || c = '\r'

/-- JS `s.toLowerCase()` (ASCII case mapping; the popular-username lists and the
dataset keys are ASCII). -/
def lowercase (s : String) : String := ⟨s.data.map Char.toLower⟩

/-- JS `String.trim()`: strip whitespace from both ends. -/
def trimStr (s : String) : String :=
  ⟨((s.data.dropWhile isWs).reverse.dropWhile isWs).reverse⟩

/-- Boolean `pat` occurs-as-contiguous-substring `l` (JS `String.includes`). -/
def occursIn (pat : List Char) : List Char → Bool
  | [] => pat.isEmpty
  | c :: t => pat.isPrefixOf (c :: t) || occursIn pat t

/-- JS `String.replace(pat, '')` with a string pattern: remove the first
occurrence of `pat` (nonempty at all call sites). -/
def removeFirst : List Char → List Char → List Char
  | [], _ => []
  | c :: rest, pat =>
      if pat.isPrefixOf (c :: rest) then (c :: rest).drop pat.length
      else c :: removeFirst rest pat

/-- Value of a pure digit string (`parseInt` after comma removal). -/
def digitsVal (cs : List Char) : Nat :=
  cs.foldl (fun n c => n * 10 + (c.toNat - '0'.toNat)) 0

/-- Does the string contain a run of at least three consecutive digits
(JS `username.match(/\d{3,}/)` truthiness)? -/
def hasDigitRun3 : List Char → Bool
  | a :: b :: c :: rest =>
      (a.isDigit && b.isDigit && c.isDigit) || hasDigitRun3 (b :: c :: rest)
  | _ => false

/-- Case-insensitive prefix test (for the `/i` regex flag). -/
def ciPrefixOf : List Char → List Char → Bool
  | [], _ => true
  | _ :: _, [] => false
  | a :: as, b :: bs => (a.toLower = b.toLower) && ciPrefixOf as bs

/-- Greedy parse of `(?:,\d+)*` starting at the argument, returning the consumed
characters and the rest.  The fuel is the input length; each group consumes at
least two characters, so the fuel never runs out (kept structural so concrete
inputs evaluate by `decide`). -/
def commaGroupsGo : Nat → List Char → List Char × List Char
  | 0, s => ([], s)
  | fuel + 1, s =>
      match s with
      | ',' :: rest =>
          let d := rest.takeWhile Char.isDigit
          if d = [] then ([], s)
          else
            let p := commaGroupsGo fuel (rest.dropWhile Char.isDigit)
            (',' :: (d ++ p.1), p.2)
      | _ => ([], s)

/-- Match `(\d+(?:,\d+)*)\s+<label>` anchored at the start of `s`, returning the
capture.  Greedy matching without backtracking agrees with the JS regex here:
after any shorter choice of the quantifiers the next character is a digit or a
comma, never whitespace, so backtracking can never rescue a failed greedy match. -/
def matchCountAt (label s : List Char) : Option (List Char) :=
  let d := s.takeWhile Char.isDigit
  if d = [] then none
  else
    let r1 := s.dropWhile Char.isDigit
    let p := commaGroupsGo r1.length r1
    let w := p.2.takeWhile isWs
    let r3 := p.2.dropWhile isWs
    if w ≠ [] && label.isPrefixOf r3 then some (d ++ p.1) else none

/-- Leftmost match of `(\d+(?:,\d+)*)\s+<label>` (JS `String.match` semantics):
try each start position left to right. -/
def findLabeledCount (label : List Char) : List Char → Option (List Char)
  | [] => none
  | c :: rest =>
      match matchCountAt label (c :: rest) with
      | some cap => some cap
      | none => findLabeledCount label rest

/-- Match `(\d+(?:\.\d+)?[KMB]?)\s+<label>` (case-insensitive) anchored at the
start of `s`, returning the capture; greedy = regex by the same argument as
`matchCountAt`. -/
def matchMagnitudeAt (label s : List Char) : Option (List Char) :=
  let d := s.takeWhile Char.isDigit
  if d = [] then none
  else
    let r1 := s.dropWhile Char.isDigit
    let fr :=
      match r1 with
      | '.' :: rest =>
          let f := rest.takeWhile Char.isDigit
          if f = [] then (([] : List Char), r1)
          else ('.' :: f, rest.dropWhile Char.isDigit)
      | _ => ([], r1)
    let sf :=
      match fr.2 with
      | c :: rest =>
          if c = 'K' || c = 'M' || c = 'B' || c = 'k' || c = 'm' || c = 'b'
          then ([c], rest) else (([] : List Char), fr.2)
      | [] => ([], fr.2)
    let w := sf.2.takeWhile isWs
    let r4 := sf.2.dropWhile isWs
    if w ≠ [] && ciPrefixOf label r4 then some (d ++ fr.1 ++ sf.1) else none

/-- Leftmost match of the magnitude pattern. -/
def findMagnitude (label : List Char) : List Char → Option (List Char)
  | [] => none
  | c :: rest =>
      match matchMagnitudeAt label (c :: rest) with
      | some cap => some cap
      | none => findMagnitude label rest

/-- Expand a count string with optional comma separators, an optional one-level
decimal part and an optional `K`/`M`/`B` magnitude suffix into an integer. -/
def magnitudeValue (s : String) : Nat :=
  let cs := s.data.filter (fun c => c ≠ ',')
  let ml :=
    match cs.getLast? with
    | some c =>
        if c = 'K' || c = 'k' then (1000, cs.dropLast)
        else if c = 'M' || c = 'm' then (1000000, cs.dropLast)
        else if c = 'B' || c = 'b' then (1000000000, cs.dropLast)
        else (1, cs)
    | none => (1, cs)
  let intPart := ml.2.takeWhile Char.isDigit
  let frac :=
    match ml.2.dropWhile Char.isDigit with
    | '.' :: fs => fs.takeWhile Char.isDigit
    | _ => []
  digitsVal intPart * ml.1 + digitsVal frac * ml.1 / 10 ^ frac.length

/-- Modelled from the spec: `parseTwitterNumbers` is invoked at server.js:96-102
but defined nowhere in the repository.  Per the spec (§4.3 parsing strategy),
count text like `"12,345"` parses to `12345` and suffixed magnitude strings
expand, `"1.2M"` to `1200000` and `"3K"` to `3000`. -/
def parseTwitterNumbers (s : String) : Nat := magnitudeValue s

/-- Modelled from the spec: `parseTikTokNumber` is invoked at server.js:368-369
but defined nowhere in the repository; same contract as `parseTwitterNumbers`. -/
def parseTikTokNumber (s : String) : Nat := magnitudeValue s

/-! ## GitHub resolver (server.js:27-74)

Two authenticated API calls (user, then recent repos); a thrown error whose
`error.response.status` is 404 answers `{ exists: false }`, every other failure
of either call answers HTTP 500.  There is no fallback strategy. -/

/-- Fields consumed from the GitHub user payload (server.js:54-63). -/
structure GithubUser where
  login : String
  followers : Nat
  following : Nat
  avatar_url : String
  public_repos : Nat
  bio : Option String
  name : Option String
  company : Option String
  location : Option String
  created_at : String
deriving DecidableEq

/-- Fields consumed from one entry of the repos payload (server.js:43-49). -/
structure GithubRepo where
  name : String
  description : Option String
  html_url : String
  stargazers_count : Nat
  language : Option String
deriving DecidableEq

/-- Joint payload of the two GitHub calls; a failure of either call throws into
the single `catch`, so one `Outcome` covers both. -/
structure GithubPayload where
  user : GithubUser
  repos : List GithubRepo
deriving DecidableEq

def githubResolve (username : String) (live : Outcome GithubPayload) : Response :=
  match live with
  | .success p =>
      .ok { «exists» := true,
            profile := .value
              { username := p.user.login,
                followers := some p.user.followers,
                following := some p.user.following,
                avatar_url := some p.user.avatar_url,
                public_repos := some p.user.public_repos,
                bio := p.user.bio,
                name := p.user.name,
                company := p.user.company,
                location := p.user.location,
                created_at := some p.user.created_at,
                recent_repos := p.repos.map (fun r =>
                  { name := r.name, description := r.description, url := r.html_url,
                    stars := r.stargazers_count, language := r.language }) } }
  | .httpError s =>
      if s = 404 then .ok { «exists» := false, profile := .omitted }
      else .serverError "Server error fetching GitHub profile"
  | .networkFailure => .serverError "Server error fetching GitHub profile"

/-! ## Twitter resolver (server.js:77-164)

Nitter scrape.  A loaded page with an `.error-panel` answers `{ exists: false }`.
Otherwise line 96 invokes `parseTwitterNumbers`, an identifier defined nowhere in
server.js, so evaluation raises a `ReferenceError` that the inner `catch`
(line 144) absorbs into the fallback; the scrape-success return at lines 128-143
is unreachable.  Any thrown live failure (including an HTTP 404 — the inner
catch has no status check) also lands in the fallback. -/

/-- The parts of the loaded Nitter page the handler reads before line 96; the
selector reads after the `parseTwitterNumbers` call are unreachable. -/
structure TwitterPage where
  errorPanel : Bool
  followerText : String
  followingText : String
  tweetsText : String
deriving DecidableEq

def popularTwitterUsernames : List String :=
  ["elonmusk", "google", "microsoft", "apple", "amazon", "netflix", "twitter",
   "facebook", "instagram", "tiktok", "billgates"]

/-- The inner catch (server.js:144-159): popular-list membership or length
heuristic, then a simulated profile or an explicit `profile: null`. -/
def twitterFallback (g : Rng) (username : String) : Response :=
  let ex := popularTwitterUsernames.contains (lowercase username) || decide (username.length > 3)
  .ok { «exists» := ex,
        profile :=
          if ex then
            .value { username := username, followers := some (g 0 % 10000), simulated := true }
          else .null }

def twitterResolve (g : Rng) (username : String) (live : Outcome TwitterPage) : Response :=
  match live with
  | .success page =>
      if page.errorPanel then .ok { «exists» := false, profile := .omitted }
      else twitterFallback g username
  | .httpError _ => twitterFallback g username
  | .networkFailure => twitterFallback g username

/-! ## Instagram resolver (server.js:167-235) -/

/-- The loaded Instagram page: the handler only reads the description meta tag
(`.attr('content') || ''`, so an absent attribute is the empty string). -/
structure InstaPage where
  metaDescription : String
deriving DecidableEq

def popularInstagramUsernames : List String :=
  ["cristiano", "leomessi", "beyonce", "kimkardashian", "arianagrande", "nike", "natgeo"]

/-- The inner catch fallback (server.js:218-229). -/
def instagramFallback (g : Rng) (username : String) : Response :=
  let ex := popularInstagramUsernames.contains (lowercase username) || decide (username.length ≥ 4)
  .ok { «exists» := ex,
        profile :=
          if ex then
            .value { username := username, followers := some (g 0 % 10000), simulated := true }
          else .null }

/-- Regex `/^([^,]+),/`: the (trimmed) text before the first comma, if the string has
a comma after at least one non-comma character. -/
def namePrefixMatch (s : String) : Option String :=
  let pre := s.data.takeWhile (fun c => c ≠ ',')
  if pre.length = 0 || pre.length = s.data.length then none
  else some (trimStr ⟨pre⟩)

/-- JS `parseInt(match[1].replace(/,/g, ''))` applied to a `findLabeledCount` capture,
defaulting to 0 when there is no match (server.js:184-196). -/
def labeledCountVal (label : String) (s : String) : Nat :=
  match findLabeledCount label.data s.data with
  | some cap => digitsVal (cap.filter (fun c => c ≠ ','))
  | none => 0

def instagramResolve (g : Rng) (username : String) (live : Outcome InstaPage) : Response :=
  match live with
  | .success page =>
      let md := page.metaDescription
      .ok { «exists» := true,
            profile := .value
              { username := username,
                name := some ((namePrefixMatch md).getD username),
                followers := some (labeledCountVal "Followers" md),
                posts := some (labeledCountVal "Posts" md),
                bio := some md,
                scraped := true } }
  | .httpError s =>
      if s = 404 then .ok { «exists» := false, profile := .omitted }
      else instagramFallback g username
  | .networkFailure => instagramFallback g username

/-! ## LinkedIn resolver (server.js:238-284) -/

def linkedinCommonNames : List String :=
  ["john", "david", "michael", "sarah", "robert", "jessica", "peter", "susan"]

/-- The inner catch fallback (server.js:266-278). -/
def linkedinFallback (g : Rng) (username : String) : Response :=
  let likelyExists := linkedinCommonNames.contains (lowercase username) ||
    (decide (username.length > 3) && !occursIn "test".data username.data &&
      !occursIn "123".data username.data)
  .ok { «exists» := likelyExists,
        profile :=
          if likelyExists then
            .value { username := username,
                     url := some ("https://www.linkedin.com/in/" ++ username ++ "/"),
                     simulated := true }
          else .null }

/-- The live call is a HEAD request; a 2xx carries no consumed payload. -/
def linkedinResolve (g : Rng) (username : String) (live : Outcome Unit) : Response :=
  match live with
  | .success _ =>
      .ok { «exists» := true,
            profile := .value
              { username := username,
                url := some ("https://www.linkedin.com/in/" ++ username ++ "/"),
                estimated_connections := some (g 0 % 500 + 200),
                checked := true } }
  | .httpError s =>
      if s = 404 then .ok { «exists» := false, profile := .omitted }
      else linkedinFallback g username
  | .networkFailure => linkedinFallback g username

/-! ## Reddit resolver (server.js:287-341) -/

/-- Fields consumed from `response.data.data` (server.js:298-313). -/
structure RedditUser where
  name : String
  total_karma : Option Nat
  link_karma : Nat
  comment_karma : Nat
  created_utc : Nat
  icon_img : Option String
  snoovatar_img : Option String
  is_gold : Bool
  subreddit_description : Option String
deriving DecidableEq

/-- JS `a || b` on possibly-absent, possibly-empty strings (`""` is falsy). -/
def firstTruthy (a b : Option String) : Option String :=
  match a with
  | some s => if s = "" then b else some s
  | none => b

def popularRedditUsernames : List String :=
  ["spez", "gallowboob", "tooshiftyforyou", "commonmisspellingbot"]

/-- The inner catch fallback (server.js:323-335); `now` is `Date.now()`.  JS
subtraction on the random epoch offset is modelled by truncated `Nat`
subtraction (the offset is at most five years, far below any realistic `now`). -/
def redditFallback (g : Rng) (username : String) (now : Nat) : Response :=
  let ex := popularRedditUsernames.contains (lowercase username) || decide (username.length > 3)
  .ok { «exists» := ex,
        profile :=
          if ex then
            .value { username := username,
                     karma := some (g 0 % 50000 + 100),
                     created_at_ms := some (now - g 1 % (5 * 365 * 24 * 60 * 60 * 1000)),
                     simulated := true }
          else .null }

/-- The payload is `response.data`: `none` models a 2xx body without a `data`
field (the `if (response.data && response.data.data)` guard failing). -/
def redditResolve (g : Rng) (username : String) (now : Nat)
    (live : Outcome (Option RedditUser)) : Response :=
  match live with
  | .success (some u) =>
      .ok { «exists» := true,
            profile := .value
              { username := u.name,
                karma := some (match u.total_karma with
                  | some k => if k = 0 then u.link_karma + u.comment_karma else k
                  | none => u.link_karma + u.comment_karma),
                link_karma := some u.link_karma,
                comment_karma := some u.comment_karma,
                created_at_ms := some (u.created_utc * 1000),
                avatar_url := firstTruthy u.icon_img u.snoovatar_img,
                is_gold := some u.is_gold,
                description := some (u.subreddit_description.getD ""),
                real_api := true } }
  | .success none => .ok { «exists» := false, profile := .omitted }
  | .httpError s =>
      if s = 404 then .ok { «exists» := false, profile := .omitted }
      else redditFallback g username now
  | .networkFailure => redditFallback g username now

/-! ## TikTok resolver (server.js:344-408)

When the og:title contains `@username` the handler regex-matches follower and
like counts in the og:description; a successful match feeds `parseTikTokNumber`,
an identifier defined nowhere in server.js, so that path raises a
`ReferenceError` absorbed by the inner catch into the fallback.  With no match,
both counts are random and the scraped return is reached. -/

structure TikTokPage where
  metaTitle : String
  metaDescription : String
deriving DecidableEq

def popularTikTokUsernames : List String :=
  ["charlidamelio", "addisonre", "khaby.lame", "bellapoarch", "zachking"]

/-- The inner catch fallback (server.js:390-402). -/
def tiktokFallback (g : Rng) (username : String) : Response :=
  let ex := popularTikTokUsernames.contains (lowercase username) || decide (username.length > 3)
  .ok { «exists» := ex,
        profile :=
          if ex then
            .value { username := username,
                     followers := some (g 0 % 1000000 + 1000),
                     likes := some (g 1 % 10000000 + 10000),
                     simulated := true }
          else .null }

def tiktokResolve (g : Rng) (username : String) (live : Outcome TikTokPage) : Response :=
  match live with
  | .success page =>
      if occursIn ("@" ++ username).data page.metaTitle.data then
        let followersMatch := findMagnitude "Followers".data page.metaDescription.data
        let likesMatch := findMagnitude "Likes".data page.metaDescription.data
        if followersMatch.isSome || likesMatch.isSome then
          -- `parseTikTokNumber(...)` on the matched capture: ReferenceError → inner catch
          tiktokFallback g username
        else
          .ok { «exists» := true,
                profile := .value
                  { username := username,
                    name := some (trimStr ⟨removeFirst page.metaTitle.data ("@" ++ username).data⟩),
                    followers := some (g 0 % 10000),
                    likes := some (g 1 % 50000),
                    bio := some page.metaDescription,
                    scraped := true } }
      else .ok { «exists» := false, profile := .omitted }
  | .httpError s =>
      if s = 404 then .ok { «exists» := false, profile := .omitted }
      else tiktokFallback g username
  | .networkFailure => tiktokFallback g username

/-! ## Spotify resolver (server.js:414-868)

No network call: exact lookup in the curated `knownProfiles` map (JS object
literals iterate string keys in insertion order), then a `compareDistance ≤ 2`
close-match filter over the key set (first match wins), then synthetic
generation.  Of each hand-authored record we embed the scalar fields and genre
list that the verified properties can observe; the static media tables
(image URLs, curated top-track/album/playlist rows) are data the resolver
only copies verbatim and are elided. -/

/-- Scalar part of a hand-authored `knownProfiles` record. -/
structure CuratedRecord where
  name : String
  followers : Nat
  popularity : Nat
  monthly_listeners : Option Nat := none
  type : String
  verified : Option Bool := none
  genres : List String := []
deriving DecidableEq

/-- The curated dataset in its JS insertion (= iteration) order (server.js:419-627). -/
def knownProfiles : List (String × CuratedRecord) :=
  [("drake",
    { name := "Drake", followers := 67438211, popularity := 96,
      monthly_listeners := some 63829401, type := "artist",
      genres := ["canadian hip hop", "canadian pop", "hip hop", "pop rap", "rap"] }),
   ("adele",
    { name := "Adele", followers := 49523685, popularity := 94,
      monthly_listeners := some 55841263, type := "artist",
      genres := ["british soul", "pop", "pop soul", "uk pop"] }),
   ("justinbieber",
    { name := "Justin Bieber", followers := 42895631, popularity := 93,
      monthly_listeners := some 71452369, type := "artist",
      genres := ["canadian pop", "dance pop", "pop", "post-teen pop"] }),
   ("spotifycharts",
    { name := "Spotify Charts", followers := 5432167, popularity := 90,
      type := "account", verified := some true }),
   ("spotifymaps",
    { name := "Spotify Maps", followers := 3214576, popularity := 82,
      type := "account", verified := some true }),
   ("weeknd",
    { name := "The Weeknd", followers := 47561234, popularity := 96,
      monthly_listeners := some 76123456, type := "artist",
      genres := ["canadian contemporary r&b", "canadian pop", "pop", "r&b"] }),
   ("theweeknd",
    { name := "The Weeknd", followers := 47561234, popularity := 96,
      monthly_listeners := some 76123456, type := "artist",
      genres := ["canadian contemporary r&b", "canadian pop", "pop", "r&b"] }),
   ("beyonce",
    { name := "Beyoncé", followers := 38421953, popularity := 95,
      monthly_listeners := some 58976231, type := "artist",
      genres := ["dance pop", "pop", "r&b"] }),
   ("badpaddy",
    { name := "Bad Paddy", followers := 47218, popularity := 58,
      monthly_listeners := some 93770, type := "artist",
      genres := ["irish indie", "irish rock", "modern alternative rock"] }),
   ("spotify",
    { name := "Spotify", followers := 12536789, popularity := 100,
      type := "account", verified := some true }),
   ("bts",
    { name := "BTS", followers := 60987453, popularity := 95,
      monthly_listeners := some 30987654, type := "artist",
      genres := ["k-pop", "k-pop boy group", "pop"] })]

/-- Lookup `knownProfiles[k]` as object-key lookup. -/
def lookupProfile (k : String) : Option CuratedRecord :=
  (knownProfiles.find? (fun p => p.1 = k)).map (fun p => p.2)

/-- Normalization `username.toLowerCase().replace(/\s+/g, '')` (server.js:631). -/
def normalizeUsername (u : String) : String :=
  ⟨(u.data.map Char.toLower).filter (fun c => !isWs c)⟩

/-- The alias rewrite (server.js:634-636): `'weeknd'` is renamed to
`'theweeknd'` when that key is present. -/
def spotifyAliasedName (u : String) : String :=
  let n := normalizeUsername u
  if n = "weeknd" && (lookupProfile "theweeknd").isSome then "theweeknd" else n

/-- The `closeMatches` filter (server.js:653-676): dataset keys within edit
distance 2 of the (aliased) normalized username, in dataset iteration order. -/
def spotifyCloseMatches (u : String) : List String :=
  (knownProfiles.map (fun p => p.1)).filter
    (fun name => compareDistance (spotifyAliasedName u) name ≤ 2)

/-- The `note` attached to a close-match substitution (server.js:689). -/
def closeNote (username profileName : String) : String :=
  "Exact match '" ++ username ++ "' not found, showing results for '" ++
    profileName ++ "' instead."

/-- The response profile built from a curated record (server.js:641-648 and
683-691): the record spread plus `username`, `external_url` and an optional `note`. -/
def curatedResponseProfile (key : String) (r : CuratedRecord) (note : Option String) : Profile :=
  { username := key,
    name := some r.name,
    followers := some r.followers,
    popularity := some r.popularity,
    monthly_listeners := r.monthly_listeners,
    type := some r.type,
    verified := r.verified,
    genres := r.genres,
    external_url := some ("https://open.spotify.com/" ++
      (if r.type = "account" then "user" else "artist") ++ "/" ++ key),
    note := note }

/-- The `likely_artist` test (server.js:695): length over 3 and no run of three digits. -/
def spotifyLikelyArtist (username : String) : Bool :=
  decide (username.length > 3) && !hasDigitRun3 username.data

/-- The `isLikelyUser` test (server.js:808): length at least 3 and no space character. -/
def spotifyIsLikelyUser (username : String) : Bool :=
  decide (username.length ≥ 3) && !username.data.contains ' '

/-! ### Synthetic artist generation (server.js:697-805) -/

/-- Display-name formatting: split on the separator class, capitalize each
segment's first letter, lowercase the rest, join with spaces.  JS `split` keeps
empty segments, and so does this embedding. -/
def splitOnPred (p : Char → Bool) : List Char → List (List Char)
  | [] => [[]]
  | c :: rest =>
      if p c then [] :: splitOnPred p rest
      else
        match splitOnPred p rest with
        | w :: ws => (c :: w) :: ws
        | [] => [[c]]

def capitalizeWord : List Char → List Char
  | [] => []
  | c :: rest => c.toUpper :: rest.map Char.toLower

/-- JS `username.split(sep).map(w => w.charAt(0).toUpperCase() + w.slice(1).toLowerCase()).join(' ')`. -/
def formatDisplayName (p : Char → Bool) (u : String) : String :=
  String.intercalate " " ((splitOnPred p u.data).map (fun w => (⟨capitalizeWord w⟩ : String)))

/-- The artist-shape separator class `/[-_\s]/` (server.js:700). -/
def artistSep (c : Char) : Bool := c = '-' || c = '_' || isWs c

/-- The listener-shape separator class `/[-_]/` (server.js:813). -/
def userSep (c : Char) : Bool := c = '-' || c = '_'

/-- The five themed genre pools (server.js:705-711). -/
def genrePools : List (List String) :=
  [["indie", "alternative", "rock", "indie rock", "alternative rock"],
   ["hip hop", "rap", "trap", "conscious hip hop", "underground hip hop"],
   ["edm", "electronic", "dance", "house", "techno"],
   ["pop", "synth pop", "dance pop", "electropop", "art pop"],
   ["r&b", "soul", "neo soul", "contemporary r&b", "urban contemporary"]]

/-- The `selectedGenres` loop (server.js:714-720).  The JS loop bound
`Math.floor(Math.random() * 3) + 2` is re-evaluated at every iteration check,
so each check draws a fresh bound in 2..4; the index `i` therefore never
exceeds 3 inside the loop and the loop body runs 2 to 4 times.  The fuel of 5
is enough for every possible run (at `i = 4` the check is always false), so the
fuel-0 branch is unreachable from the initial call. -/
def pickGenresLoop (g : Rng) (pool : List String) : Nat → Nat → Nat → List String → List String
  | 0, _, _, acc => acc
  | fuel + 1, k, i, acc =>
      if i < g k % 3 + 2 then
        let x := pool.getD (g (k + 1) % pool.length) ""
        pickGenresLoop g pool fuel (k + 2) (i + 1) (if acc.contains x then acc else acc ++ [x])
      else acc

def albumWordPool : List String :=
  ["Euphoria", "Dreamer", "Midnight", "Sunrise", "Horizon", "Nostalgia",
   "Revolution", "Journey", "Freedom", "Utopia"]

/-- The `generateAlbumTitle` helper (server.js:723-733): JS evaluates every element of the
format array (so both embedded draws happen) before drawing the format index.
Consumes draws `k`, `k+1`, `k+2`.  The function's `artistName` argument is
`formattedName` at its only call site. -/
def generateAlbumTitle (g : Rng) (k : Nat) (formattedName : String) : String :=
  let variantNum := g k % 2 + 1
  let variantWord := albumWordPool.getD (g (k + 1) % 10) ""
  let albumTitleFormats : List String :=
    [(⟨formattedName.data.takeWhile (fun c => c ≠ ' ')⟩ : String),
     "The " ++ formattedName ++ " Experience",
     formattedName ++ " " ++ toString variantNum,
     variantWord,
     formattedName ++ "'s World"]
  albumTitleFormats.getD (g (k + 2) % 5) ""

def songWordPool : List String :=
  ["Love", "Hate", "Dream", "Hope", "Faith", "Paradise", "Heaven", "Hell", "Life", "Time"]

def songPlacePool : List String := ["Mind", "Heart", "Soul", "Dream", "World"]

def songAdjPool : List String := ["Beautiful", "Crazy", "Amazing", "Perfect", "Broken"]

def songNounPool : List String := ["Day", "Night", "Love", "World", "Girl", "Boy"]

def songWayPool : List String := ["Way", "Path", "Journey", "Story", "Legend"]

/-- The `generateSongTitle` helper (server.js:736-746); consumes draws `k` .. `k+5`. -/
def generateSongTitle (g : Rng) (k : Nat) (artistName : String) : String :=
  let w0 := songWordPool.getD (g k % 10) ""
  let w2 := songPlacePool.getD (g (k + 1) % 5) ""
  let w3a := songAdjPool.getD (g (k + 2) % 5) ""
  let w3b := songNounPool.getD (g (k + 3) % 6) ""
  let w4 := songWayPool.getD (g (k + 4) % 5) ""
  let songTitleFormats : List String :=
    [w0, artistName ++ "'s Interlude", "In My " ++ w2, w3a ++ " " ++ w3b, "The " ++ w4]
  songTitleFormats.getD (g (k + 5) % 5) ""

def albumCoverPool : List String :=
  ["https://i.scdn.co/image/ab67616d0000b273b11bdc91cb9ac98b16ea29b1",
   "https://i.scdn.co/image/ab67616d0000b273cb4ec52c48a6b071ed2ab6bc",
   "https://i.scdn.co/image/ab67616d0000b2737358a760596f0c9aee3a1cc6",
   "https://i.scdn.co/image/ab67616d0000b273e0c86ff886d8101f24dc223b",
   "https://i.scdn.co/image/ab67616d0000b273afb855e6eba49a012b37c60a"]

/-- JS `value.toString().padStart(2, '0')` for month and day numbers. -/
def pad2 (n : Nat) : String := if n < 10 then "0" ++ toString n else toString n

/-- The albums loop (server.js:749-767).  As with the genres loop, the bound
`Math.floor(Math.random() * 2) + 2` is re-drawn at each check, so the loop body
runs 2 or 3 times (`albumYear = 2023 - i`); fuel 3 suffices and the fuel-0
branch is unreachable from the initial call. -/
def genAlbumsLoop (g : Rng) (formattedName : String) : Nat → Nat → Nat → List Album
  | 0, _, _ => []
  | fuel + 1, k, i =>
      if i < g k % 2 + 2 then
        { name := generateAlbumTitle g (k + 3) formattedName,
          release_date := toString (2023 - i) ++ "-" ++ pad2 (g (k + 1) % 12 + 1) ++ "-" ++
            pad2 (g (k + 2) % 28 + 1),
          total_tracks := g (k + 6) % 8 + 6,
          image_url := albumCoverPool.getD (g (k + 7) % 5) "" } ::
          genAlbumsLoop g formattedName fuel (k + 8) (i + 1)
      else []

/-- The `topTracks` loop (server.js:770-780): exactly 5 iterations, each first
drawing `randomAlbum = albums[...]` and copying its `name` and `release_date`. -/
def genTracksLoop (g : Rng) (formattedName : String) (albums : List Album) :
    Nat → Nat → List Track
  | _, 0 => []
  | k, n + 1 =>
      let randomAlbum := albums.getD (g k % albums.length) { name := "", release_date := "", total_tracks := 0, image_url := "" }
      { name := generateSongTitle g (k + 1) formattedName,
        popularity := g (k + 7) % 30 + 50,
        album := randomAlbum.name,
        release_date := randomAlbum.release_date,
        duration_ms := g (k + 8) % 100000 + 150000 } ::
        genTracksLoop g formattedName albums (k + 9) n

def artistImagePool : List String :=
  ["https://i.scdn.co/image/ab6761610000e5eb6a0633b2b741fd857558e409",
   "https://i.scdn.co/image/ab6761610000e5eb8c7f275dd8dae2d1676c7b49",
   "https://i.scdn.co/image/ab6761610000e5ebeac917b9a5db711acb84862a",
   "https://i.scdn.co/image/ab6761610000e5ebc7db57b1c848a1532767c696",
   "https://i.scdn.co/image/ab6761610000e5ebf3ca460461fae39243a15316"]

/-- The whole artist-shape generation and response profile (server.js:697-805). -/
def generateArtistProfile (g : Rng) (username normalizedUsername : String) : Profile :=
  let formattedName := formatDisplayName artistSep username
  let pool := genrePools.getD (g 0 % 5) []
  let selectedGenres := pickGenresLoop g pool 5 10 0 []
  let albums := genAlbumsLoop g formattedName 3 40 0
  let topTracks := genTracksLoop g formattedName albums 80 5
  { username := normalizedUsername,
    name := some formattedName,
    followers := some (g 130 % 50000 + 100),
    popularity := some (g 131 % 80 + 20),
    monthly_listeners := some (g 132 % 80000 + 1000),
    image_url := some (artistImagePool.getD (g 133 % 5) ""),
    type := some "artist",
    genres := selectedGenres,
    top_tracks := topTracks,
    albums := albums,
    simulated := true,
    external_url := some ("https://open.spotify.com/artist/" ++ normalizedUsername) }

/-! ### Synthetic listener generation (server.js:806-858) -/

def playlistPrefixPool : List String := ["My", "Favorite", "Best", "Ultimate", "Top", "Essential"]

def playlistTypePool : List String := ["Vibes", "Mix", "Collection", "Playlist", "Selections", "Hits"]

def playlistGenrePool : List String :=
  ["Rock", "Pop", "Hip Hop", "R&B", "Electronic", "Indie", "Chill", "Party", "Workout", "Focus"]

/-- The `generatePlaylistName` helper (server.js:818-829); `Math.random() > 0.5` is an even
coin, modelled as a parity draw. -/
def generatePlaylistName (g : Rng) (k : Nat) (formattedName : String) : String :=
  if g k % 2 = 1 then
    playlistPrefixPool.getD (g (k + 1) % 6) "" ++ " " ++ playlistGenrePool.getD (g (k + 2) % 10) ""
  else
    formattedName ++ "'s " ++ playlistTypePool.getD (g (k + 1) % 6) ""

def playlistCoverPool : List String :=
  ["https://mosaic.scdn.co/640/ab67616d0000b2733d92b2ad5af9fbc8637425f0ab67616d0000b27365a6fc854a3d3dd8561b3d6aab67616d0000b273b11078ee23dcd99e19a22136ab67616d0000b273f46de17106c4094169e8f278",
   "https://mosaic.scdn.co/640/ab67616d0000b273337c5cd881484f68c460b92cab67616d0000b273b29fe3874f65bb79ea52b19dab67616d0000b273d0ada88c5f051976c6dbafdab67616d0000b273dd7106adf7ec3cb52c87cabf",
   "https://mosaic.scdn.co/640/ab67616d0000b2736b44ad73d4e6c6e553dac3ebab67616d0000b273a48dd70027ffc3fc2e29e0cfab67616d0000b273ce8f4e0a06bbfc4f425917adab67616d0000b273e3119a3e3e0ca37bb180c0a0",
   "https://i.scdn.co/image/ab67706c0000da84df9f7092c2fbdefa3b502142",
   "https://i.scdn.co/image/ab67706c0000da84507e4f2a8c4af45e4b556d09"]

/-- The playlists loop (server.js:831-845): bound `Math.floor(Math.random()*3)+2`
re-drawn per check, so 2 to 4 playlists; fuel 5 suffices. -/
def genPlaylistsLoop (g : Rng) (formattedName : String) : Nat → Nat → Nat → List Playlist
  | 0, _, _ => []
  | fuel + 1, k, i =>
      if i < g k % 3 + 2 then
        { name := generatePlaylistName g (k + 1) formattedName,
          followers := g (k + 4) % 1000 + 10,
          total_tracks := g (k + 5) % 50 + 20,
          image_url := playlistCoverPool.getD (g (k + 6) % 5) "" } ::
          genPlaylistsLoop g formattedName fuel (k + 7) (i + 1)
      else []

/-- The listener-shape generation and response profile (server.js:810-858). -/
def generateUserProfile (g : Rng) (username normalizedUsername : String) : Profile :=
  let formattedName := formatDisplayName userSep username
  let playlists := genPlaylistsLoop g formattedName 5 10 0
  { username := normalizedUsername,
    name := some formattedName,
    followers := some (g 130 % 5000 + 10),
    type := some "user",
    playlists := playlists,
    simulated := true,
    external_url := some ("https://open.spotify.com/user/" ++ normalizedUsername) }

/-- The fallback dispatch (server.js:694-863): artist shape when `likely_artist`,
else listener shape when `isLikelyUser`, else `{ exists: false }`. -/
def spotifyFallback (g : Rng) (username : String) : Response :=
  if spotifyLikelyArtist username then
    .ok { «exists» := true,
          profile := .value (generateArtistProfile g username (spotifyAliasedName username)) }
  else if spotifyIsLikelyUser username then
    .ok { «exists» := true,
          profile := .value (generateUserProfile g username (spotifyAliasedName username)) }
  else .ok { «exists» := false, profile := .omitted }

/-- The full Spotify handler (server.js:414-868): exact curated lookup, then
first close match, then the synthetic fallback. -/
def spotifyResolve (g : Rng) (username : String) : Response :=
  match lookupProfile (spotifyAliasedName username) with
  | some profile =>
      .ok { «exists» := true,
            profile := .value (curatedResponseProfile (spotifyAliasedName username) profile none) }
  | none =>
      match spotifyCloseMatches username with
      | closestMatch :: _ =>
          match lookupProfile closestMatch with
          | some profile =>
              .ok { «exists» := true,
                    profile := .value (curatedResponseProfile closestMatch profile
                      (some (closeNote username profile.name))) }
          | none => .ok { «exists» := false, profile := .omitted }
      | [] => spotifyFallback g username

/-! ## Specification-side predicates and auxiliary lemmas -/

/-- Envelope well-formedness: an HTTP-200 body carries a profile object exactly
when `exists` is true; a missing key or explicit null goes with `exists: false`. -/
def envelopeOK : Response → Bool
  | .ok pr => (match pr.profile with | .value _ => true | _ => false) == pr.«exists»
  | .serverError _ => true

/-- The C10 check on a Twitter answer: a profile object is never tagged
`scraped` and always tagged `simulated`; a non-object profile comes with
`exists: false`; an error answer is not a profile at all. -/
def twitterSimulatedOnly : Response → Bool
  | .ok pr =>
      match pr.profile with
      | .value p => !p.scraped && p.simulated
      | _ => !pr.«exists»
  | .serverError _ => true

theorem envelopeOK_heuristic (ex : Bool) (p : Profile) :
    envelopeOK (.ok { «exists» := ex, profile := if ex then .value p else .null }) = true := by
  cases ex <;> rfl

theorem twitterSimulatedOnly_heuristic (ex : Bool) (p : Profile)
    (h1 : p.scraped = false) (h2 : p.simulated = true) :
    twitterSimulatedOnly (.ok { «exists» := ex, profile := if ex then .value p else .null })
      = true := by
  cases ex <;> simp [twitterSimulatedOnly, h1, h2]

theorem envelopeOK_twitterFallback (g : Rng) (u : String) :
    envelopeOK (twitterFallback g u) = true := envelopeOK_heuristic _ _

theorem envelopeOK_instagramFallback (g : Rng) (u : String) :
    envelopeOK (instagramFallback g u) = true := envelopeOK_heuristic _ _

theorem envelopeOK_linkedinFallback (g : Rng) (u : String) :
    envelopeOK (linkedinFallback g u) = true := envelopeOK_heuristic _ _

theorem envelopeOK_redditFallback (g : Rng) (u : String) (now : Nat) :
    envelopeOK (redditFallback g u now) = true := envelopeOK_heuristic _ _

theorem envelopeOK_tiktokFallback (g : Rng) (u : String) :
    envelopeOK (tiktokFallback g u) = true := envelopeOK_heuristic _ _

theorem twitterSimulatedOnly_fallback (g : Rng) (u : String) :
    twitterSimulatedOnly (twitterFallback g u) = true :=
  twitterSimulatedOnly_heuristic _ _ rfl rfl

/-! ### Substring lemmas for the close-match note -/

theorem isPrefixOf_append_self : ∀ (p b : List Char), p.isPrefixOf (p ++ b) = true := by
  intro p
  induction p with
  | nil => intro b; simp [List.isPrefixOf]
  | cons c p ih => intro b; simp [List.isPrefixOf, ih]

theorem occursIn_of_isPrefixOf (p : List Char) :
    ∀ (l : List Char), p.isPrefixOf l = true → occursIn p l = true := by
  intro l
  cases l with
  | nil =>
      intro h
      cases p with
      | nil => rfl
      | cons c t => simp [List.isPrefixOf] at h
  | cons c t => intro h; simp [occursIn, h]

theorem occursIn_append_middle : ∀ (a p b : List Char), occursIn p (a ++ (p ++ b)) = true := by
  intro a
  induction a with
  | nil =>
      intro p b
      simp only [List.nil_append]
      exact occursIn_of_isPrefixOf p (p ++ b) (isPrefixOf_append_self p b)
  | cons c a ih =>
      intro p b
      simp [occursIn, ih p b]

/-! ### Loop invariants of the synthetic generators -/

theorem genTracksLoop_length (g : Rng) (fn : String) (albums : List Album) :
    ∀ (n k : Nat), (genTracksLoop g fn albums k n).length = n := by
  intro n
  induction n with
  | zero => intro k; rfl
  | succ n ih => intro k; simp only [genTracksLoop, List.length_cons, ih]

theorem genTracksLoop_album_mem (g : Rng) (fn : String) (albums : List Album)
    (h : albums ≠ []) :
    ∀ (n k : Nat) (t : Track), t ∈ genTracksLoop g fn albums k n →
      ∃ a ∈ albums, t.album = a.name := by
  intro n
  induction n with
  | zero => intro k t ht; simp [genTracksLoop] at ht
  | succ n ih =>
      intro k t ht
      simp only [genTracksLoop, List.mem_cons] at ht
      rcases ht with h1 | h2
      · have hlen : 0 < albums.length := List.length_pos.mpr h
        have hidx : g k % albums.length < albums.length := Nat.mod_lt _ hlen
        subst h1
        refine ⟨albums.getD (g k % albums.length)
          { name := "", release_date := "", total_tracks := 0, image_url := "" }, ?_, rfl⟩
        rw [List.getD_eq_getElem _ _ hidx]
        exact List.getElem_mem hidx
      · exact ih (k + 9) t h2

theorem genAlbumsLoop_length_le (g : Rng) (fn : String) :
    ∀ (fuel k i : Nat), (genAlbumsLoop g fn fuel k i).length ≤ 3 - i := by
  intro fuel
  induction fuel with
  | zero => intro k i; simp [genAlbumsLoop]
  | succ fuel ih =>
      intro k i
      simp only [genAlbumsLoop]
      split
      · next hcond =>
          have hm : g k % 2 < 2 := Nat.mod_lt _ (by omega)
          have hrec := ih (k + 8) (i + 1)
          simp only [List.length_cons]
          omega
      · simp

theorem genAlbumsLoop_length_ge (g : Rng) (fn : String) :
    ∀ (fuel i k : Nat), 3 ≤ i + fuel → i ≤ 1 → 2 - i ≤ (genAlbumsLoop g fn fuel k i).length := by
  intro fuel
  induction fuel with
  | zero => intro i k h1 h2; omega
  | succ fuel ih =>
      intro i k h1 h2
      simp only [genAlbumsLoop]
      rw [if_pos (by omega)]
      simp only [List.length_cons]
      by_cases hi : i = 1
      · omega
      · have h0 : i = 0 := by omega
        subst h0
        simp only [Nat.zero_add]
        have := ih 1 (k + 8) (by omega) (by omega)
        omega

theorem pickGenresLoop_len_le (g : Rng) (pool : List String) :
    ∀ (fuel k i : Nat) (acc : List String),
      (pickGenresLoop g pool fuel k i acc).length ≤ acc.length + (4 - i) := by
  intro fuel
  induction fuel with
  | zero => intro k i acc; simp [pickGenresLoop]
  | succ fuel ih =>
      intro k i acc
      simp only [pickGenresLoop]
      split
      · next hcond =>
          have hm : g k % 3 < 3 := Nat.mod_lt _ (by omega)
          have hrec := ih (k + 2) (i + 1)
            (if acc.contains (pool.getD (g (k + 1) % pool.length) "") then acc
             else acc ++ [pool.getD (g (k + 1) % pool.length) ""])
          have hlen : (if acc.contains (pool.getD (g (k + 1) % pool.length) "") then acc
              else acc ++ [pool.getD (g (k + 1) % pool.length) ""]).length ≤ acc.length + 1 := by
            split <;> simp
          omega
      · omega

theorem pickGenresLoop_acc_len_le (g : Rng) (pool : List String) :
    ∀ (fuel k i : Nat) (acc : List String),
      acc.length ≤ (pickGenresLoop g pool fuel k i acc).length := by
  intro fuel
  induction fuel with
  | zero => intro k i acc; simp [pickGenresLoop]
  | succ fuel ih =>
      intro k i acc
      simp only [pickGenresLoop]
      split
      · next hcond =>
          have hrec := ih (k + 2) (i + 1)
            (if acc.contains (pool.getD (g (k + 1) % pool.length) "") then acc
             else acc ++ [pool.getD (g (k + 1) % pool.length) ""])
          have hlen : acc.length ≤ (if acc.contains (pool.getD (g (k + 1) % pool.length) "") then acc
              else acc ++ [pool.getD (g (k + 1) % pool.length) ""]).length := by
            split <;> simp
          omega
      · omega

theorem pickGenresLoop_nodup (g : Rng) (pool : List String) :
    ∀ (fuel k i : Nat) (acc : List String), acc.Nodup →
      (pickGenresLoop g pool fuel k i acc).Nodup := by
  intro fuel
  induction fuel with
  | zero => intro k i acc h; simpa [pickGenresLoop] using h
  | succ fuel ih =>
      intro k i acc h
      simp only [pickGenresLoop]
      split
      · apply ih
        split
        · exact h
        · next hmem =>
            simp only [List.contains, List.elem_eq_mem, decide_eq_true_eq] at hmem
            refine List.Nodup.append h (List.nodup_singleton _) ?_
            rw [List.disjoint_singleton]
            exact hmem
      · exact h

theorem pickGenresLoop_mem (g : Rng) (pool : List String) (hp : pool ≠ []) :
    ∀ (fuel k i : Nat) (acc : List String) (y : String),
      y ∈ pickGenresLoop g pool fuel k i acc → y ∈ acc ∨ y ∈ pool := by
  intro fuel
  induction fuel with
  | zero => intro k i acc y h; simp only [pickGenresLoop] at h; exact Or.inl h
  | succ fuel ih =>
      intro k i acc y h
      simp only [pickGenresLoop] at h
      split at h
      · rcases ih (k + 2) (i + 1) _ y h with hacc | hpool
        · split at hacc
          · exact Or.inl hacc
          · rcases List.mem_append.mp hacc with h1 | h2
            · exact Or.inl h1
            · right
              have hx : y = pool.getD (g (k + 1) % pool.length) "" := by
                simpa using h2
              have hlen : 0 < pool.length := List.length_pos.mpr hp
              have hidx : g (k + 1) % pool.length < pool.length := Nat.mod_lt _ hlen
              rw [hx, List.getD_eq_getElem _ _ hidx]
              exact List.getElem_mem hidx
        · exact Or.inr hpool
      · exact Or.inl h

theorem pickGenresLoop_start_ge_one (g : Rng) (pool : List String) :
    ∀ (fuel k : Nat), 1 ≤ fuel → 1 ≤ (pickGenresLoop g pool fuel k 0 []).length := by
  intro fuel
  cases fuel with
  | zero => intro k h; omega
  | succ fuel =>
      intro k h
      simp only [pickGenresLoop]
      rw [if_pos (by omega)]
      have hstep := pickGenresLoop_acc_len_le g pool fuel (k + 2) 1
        [pool.getD (g (k + 1) % pool.length) ""]
      simpa using hstep

/-- Does the handler answer HTTP 200 with a `ProfileResult` body (rather than a
500 error body)? -/
def respondsWithResult : Response → Bool
  | .ok _ => true
  | .serverError _ => false

theorem envelopeOK_spotifyFallback (g : Rng) (u : String) :
    envelopeOK (spotifyFallback g u) = true := by
  unfold spotifyFallback
  split
  · rfl
  · split
    · rfl
    · rfl

/-! ## The claims -/

/-- C6: `compareDistance` equals the classic Levenshtein edit distance (both the
textbook recurrence `lev` and Mathlib's `levenshtein` at unit costs); in
particular it is symmetric despite the operand-order normalization,
`compareDistance a a = 0`, and `compareDistance a b = 0` iff `a = b`. -/
theorem c6_compareDistance_classic (a b : String) :
    compareDistance a b = lev a.data b.data ∧
    compareDistance a b = levenshtein Levenshtein.defaultCost a.data b.data ∧
    compareDistance a b = compareDistance b a ∧
    compareDistance a a = 0 ∧
    (compareDistance a b = 0 ↔ a = b) := by
  refine ⟨compareDistance_eq_lev a b, ?_, ?_, ?_, ?_⟩
  · rw [compareDistance_eq_lev, lev_eq_levenshtein]
  · rw [compareDistance_eq_lev, compareDistance_eq_lev, lev_symm]
  · rw [compareDistance_eq_lev, lev_self]
  · rw [compareDistance_eq_lev, lev_eq_zero_iff]
    exact ⟨fun h => String.ext h, fun h => by rw [h]⟩

/-- C1 counterexample: a GitHub live-call network failure is answered with the
500 error body, not recovered into a 200 `ProfileResult` — the GitHub handler
has no fallback strategy. -/
theorem c1_counterexample :
    githubResolve "octocat" Outcome.networkFailure =
      Response.serverError "Server error fetching GitHub profile" := rfl

/-- C1 (amended): for the five resolvers that do have a fallback (Twitter,
Instagram, LinkedIn, Reddit, TikTok), every live-call failure other than an
explicit HTTP 404 is recovered locally by transitioning to the fallback
strategy, whose answer is always HTTP 200 with a well-formed `ProfileResult`;
the GitHub resolver instead surfaces every non-404 live failure as a 500 error
response. -/
theorem c1_live_failure_fallback (g : Rng) (u : String) (now c : Nat) (hc : c ≠ 404) :
    twitterResolve g u (.httpError c) = twitterFallback g u ∧
    twitterResolve g u .networkFailure = twitterFallback g u ∧
    instagramResolve g u (.httpError c) = instagramFallback g u ∧
    instagramResolve g u .networkFailure = instagramFallback g u ∧
    linkedinResolve g u (.httpError c) = linkedinFallback g u ∧
    linkedinResolve g u .networkFailure = linkedinFallback g u ∧
    redditResolve g u now (.httpError c) = redditFallback g u now ∧
    redditResolve g u now .networkFailure = redditFallback g u now ∧
    tiktokResolve g u (.httpError c) = tiktokFallback g u ∧
    tiktokResolve g u .networkFailure = tiktokFallback g u ∧
    respondsWithResult (twitterFallback g u) = true ∧
    respondsWithResult (instagramFallback g u) = true ∧
    respondsWithResult (linkedinFallback g u) = true ∧
    respondsWithResult (redditFallback g u now) = true ∧
    respondsWithResult (tiktokFallback g u) = true ∧
    envelopeOK (twitterFallback g u) = true ∧
    envelopeOK (instagramFallback g u) = true ∧
    envelopeOK (linkedinFallback g u) = true ∧
    envelopeOK (redditFallback g u now) = true ∧
    envelopeOK (tiktokFallback g u) = true ∧
    githubResolve u (.httpError c) = .serverError "Server error fetching GitHub profile" ∧
    githubResolve u .networkFailure = .serverError "Server error fetching GitHub profile" := by
  refine ⟨rfl, rfl, ?_, rfl, ?_, rfl, ?_, rfl, ?_, rfl, rfl, rfl, rfl, rfl, rfl,
    envelopeOK_twitterFallback g u, envelopeOK_instagramFallback g u,
    envelopeOK_linkedinFallback g u, envelopeOK_redditFallback g u now,
    envelopeOK_tiktokFallback g u, ?_, rfl⟩
  · simp only [instagramResolve]
    rw [if_neg hc]
  · simp only [linkedinResolve]
    rw [if_neg hc]
  · simp only [redditResolve]
    rw [if_neg hc]
  · simp only [tiktokResolve]
    rw [if_neg hc]
  · simp only [githubResolve]
    rw [if_neg hc]

/-- C1 witness: the amended theorem applied at a concrete non-404 failure. -/
theorem c1_witness :
    twitterResolve gZero "octocat" (.httpError 500) = twitterFallback gZero "octocat" ∧
    githubResolve "octocat" (.httpError 500) =
      .serverError "Server error fetching GitHub profile" := by
  have h := c1_live_failure_fallback gZero "octocat" 0 500 (by decide)
  exact ⟨h.1, h.2.2.2.2.2.2.2.2.2.2.2.2.2.2.2.2.2.2.2.2.1⟩

/-- C2 counterexample: an explicit HTTP 404 from the Twitter live call does not
short-circuit to `NOT_FOUND`; it falls through to the heuristic fallback, which
for `"elonmusk"` fabricates an `exists: true` simulated profile. -/
theorem c2_counterexample :
    twitterResolve gZero "elonmusk" (.httpError 404) =
      .ok ⟨true, .value { username := "elonmusk", followers := some 0, simulated := true }⟩ := by
  decide

/-- C2 (amended): for every platform resolver except Twitter (GitHub, Instagram,
LinkedIn, Reddit, TikTok), an explicit HTTP 404 from the remote short-circuits
directly to the terminal `NOT_FOUND` result — `exists: false` with the profile
key omitted — and never reaches the heuristic fallback; the Twitter resolver
treats an HTTP 404 like any other live failure and falls through to its
fallback, its terminal remote not-found signal being instead the error panel in
a successfully loaded page. -/
theorem c2_remote_404_short_circuits (g : Rng) (u ft fg tt : String) (now : Nat) :
    githubResolve u (.httpError 404) = .ok ⟨false, .omitted⟩ ∧
    instagramResolve g u (.httpError 404) = .ok ⟨false, .omitted⟩ ∧
    linkedinResolve g u (.httpError 404) = .ok ⟨false, .omitted⟩ ∧
    redditResolve g u now (.httpError 404) = .ok ⟨false, .omitted⟩ ∧
    tiktokResolve g u (.httpError 404) = .ok ⟨false, .omitted⟩ ∧
    twitterResolve g u (.httpError 404) = twitterFallback g u ∧
    twitterResolve g u (.success ⟨true, ft, fg, tt⟩) = .ok ⟨false, .omitted⟩ :=
  ⟨rfl, rfl, rfl, rfl, rfl, rfl, rfl⟩

/-- C3 counterexample: the GitHub 404 branch answers `{ exists: false }` with
the profile key omitted, not with an explicit `profile: null`. -/
theorem c3_counterexample :
    githubResolve "octocat" (.httpError 404) = .ok ⟨false, .omitted⟩ ∧
    ProfileField.omitted ≠ ProfileField.null := ⟨rfl, by decide⟩

/-- C3 (amended): on every platform endpoint and every path, a 200 response
carries a profile object exactly when `exists` is true; when `exists` is false
the profile is either omitted (terminal not-found branches) or an explicit
`null` (heuristic fallback misses), never an object. -/
theorem c3_envelope_invariant (g : Rng) (u : String) (now : Nat)
    (lg : Outcome GithubPayload) (lt : Outcome TwitterPage) (li : Outcome InstaPage)
    (ll : Outcome Unit) (lr : Outcome (Option RedditUser)) (lk : Outcome TikTokPage) :
    envelopeOK (githubResolve u lg) = true ∧
    envelopeOK (twitterResolve g u lt) = true ∧
    envelopeOK (instagramResolve g u li) = true ∧
    envelopeOK (linkedinResolve g u ll) = true ∧
    envelopeOK (redditResolve g u now lr) = true ∧
    envelopeOK (tiktokResolve g u lk) = true ∧
    envelopeOK (spotifyResolve g u) = true := by
  refine ⟨?_, ?_, ?_, ?_, ?_, ?_, ?_⟩
  · cases lg with
    | success p => rfl
    | httpError s =>
        simp only [githubResolve]
        split <;> rfl
    | networkFailure => rfl
  · cases lt with
    | success page =>
        simp only [twitterResolve]
        split
        · rfl
        · exact envelopeOK_twitterFallback g u
    | httpError s => exact envelopeOK_twitterFallback g u
    | networkFailure => exact envelopeOK_twitterFallback g u
  · cases li with
    | success page => rfl
    | httpError s =>
        simp only [instagramResolve]
        split
        · rfl
        · exact envelopeOK_instagramFallback g u
    | networkFailure => exact envelopeOK_instagramFallback g u
  · cases ll with
    | success d => rfl
    | httpError s =>
        simp only [linkedinResolve]
        split
        · rfl
        · exact envelopeOK_linkedinFallback g u
    | networkFailure => exact envelopeOK_linkedinFallback g u
  · cases lr with
    | success d => cases d <;> rfl
    | httpError s =>
        simp only [redditResolve]
        split
        · rfl
        · exact envelopeOK_redditFallback g u now
    | networkFailure => exact envelopeOK_redditFallback g u now
  · cases lk with
    | success page =>
        simp only [tiktokResolve]
        split
        · split
          · exact envelopeOK_tiktokFallback g u
          · rfl
        · rfl
    | httpError s =>
        simp only [tiktokResolve]
        split
        · rfl
        · exact envelopeOK_tiktokFallback g u
    | networkFailure => exact envelopeOK_tiktokFallback g u
  · unfold spotifyResolve
    split
    · rfl
    · split
      · split
        · rfl
        · rfl
      · exact envelopeOK_spotifyFallback g u

/-- C10: the Twitter endpoint never answers with a profile tagged
`scraped: true` — the scrape-success return is unreachable because
`parseTwitterNumbers` is defined nowhere in the source — so every profile
object it answers is tagged `simulated: true`, and every non-simulated outcome
is `exists: false` (or, outside this handler model, a 500). -/
theorem c10_twitter_always_simulated (g : Rng) (u : String) (lt : Outcome TwitterPage) :
    twitterSimulatedOnly (twitterResolve g u lt) = true := by
  cases lt with
  | success page =>
      simp only [twitterResolve]
      split
      · rfl
      · exact twitterSimulatedOnly_fallback g u
  | httpError s => exact twitterSimulatedOnly_fallback g u
  | networkFailure => exact twitterSimulatedOnly_fallback g u

/-- C7: the count parsers expand label-adjacent numeric text — `"12,345"` to
`12345`, `"1.2M"` to `1200000`, `"3K"` to `3000` via `parseTwitterNumbers` and
`parseTikTokNumber` (both modelled from the spec, being invoked but defined
nowhere in the source), and the Instagram meta-description parse extracts
`"12,345 Followers"` as `followers = 12345` on a successful live scrape. -/
theorem c7_numeric_parsing :
    parseTwitterNumbers "12,345" = 12345 ∧
    parseTwitterNumbers "1.2M" = 1200000 ∧
    parseTwitterNumbers "3K" = 3000 ∧
    parseTikTokNumber "12,345" = 12345 ∧
    parseTikTokNumber "1.2M" = 1200000 ∧
    parseTikTokNumber "3K" = 3000 ∧
    instagramResolve gZero "someuser" (.success ⟨"12,345 Followers"⟩) =
      .ok ⟨true, .value
        { username := "someuser", name := some "12",
          followers := some 12345, posts := some 0,
          bio := some "12,345 Followers", scraped := true }⟩ := by
  refine ⟨?_, ?_, ?_, ?_, ?_, ?_, ?_⟩ <;> decide

/-- C4: every synthetic artist profile produced by the Spotify fallback is
tagged `simulated: true` with type `'artist'`, carries exactly 5 top tracks,
its albums list has 2 to 3 entries, and every track's `album` field equals the
`name` of some entry of that same profile's albums list. -/
theorem c4_artist_top_tracks (g : Rng) (u nu : String) :
    (generateArtistProfile g u nu).simulated = true ∧
    (generateArtistProfile g u nu).type = some "artist" ∧
    (generateArtistProfile g u nu).top_tracks.length = 5 ∧
    2 ≤ (generateArtistProfile g u nu).albums.length ∧
    (generateArtistProfile g u nu).albums.length ≤ 3 ∧
    ∀ t ∈ (generateArtistProfile g u nu).top_tracks,
      ∃ a ∈ (generateArtistProfile g u nu).albums, t.album = a.name := by
  have halb : (generateArtistProfile g u nu).albums
      = genAlbumsLoop g (formatDisplayName artistSep u) 3 40 0 := rfl
  have htr : (generateArtistProfile g u nu).top_tracks
      = genTracksLoop g (formatDisplayName artistSep u)
          (genAlbumsLoop g (formatDisplayName artistSep u) 3 40 0) 80 5 := rfl
  refine ⟨rfl, rfl, ?_, ?_, ?_, ?_⟩
  · rw [htr]
    exact genTracksLoop_length g _ _ 5 80
  · rw [halb]
    have h := genAlbumsLoop_length_ge g (formatDisplayName artistSep u) 3 0 40
      (by omega) (by omega)
    omega
  · rw [halb]
    have h := genAlbumsLoop_length_le g (formatDisplayName artistSep u) 3 40 0
    omega
  · intro t ht
    rw [htr] at ht
    rw [halb]
    have hge := genAlbumsLoop_length_ge g (formatDisplayName artistSep u) 3 0 40
      (by omega) (by omega)
    have hne : genAlbumsLoop g (formatDisplayName artistSep u) 3 40 0 ≠ [] := by
      intro hnil
      rw [hnil] at hge
      simp at hge
    exact genTracksLoop_album_mem g _ _ hne 5 80 t ht

/-- C4 witness: the theorem's shape facts at a concrete generator run. -/
theorem c4_witness :
    (generateArtistProfile gZero "nova" "nova").top_tracks.length = 5 ∧
    2 ≤ (generateArtistProfile gZero "nova" "nova").albums.length := by
  have h := c4_artist_top_tracks gZero "nova" "nova"
  exact ⟨h.2.2.1, h.2.2.2.1⟩

/-- C9 counterexample: under the all-zeros random stream the genre loop runs
twice, draws the same pool entry both times, and deduplication leaves a single
genre — fewer than the claimed minimum of 2. -/
theorem c9_counterexample :
    (generateArtistProfile gZero "nova" "nova").genres = ["indie"] ∧
    ¬ 2 ≤ (generateArtistProfile gZero "nova" "nova").genres.length := by
  constructor <;> decide

/-- C9 (amended): every synthetic artist profile's genres list holds between 1
and 4 unique tags, all drawn from one single randomly chosen themed pool — the
loop makes 2 to 4 draws with replacement and deduplicates, so repeated draws
can shrink the list to a single tag. -/
theorem c9_genre_bounds (g : Rng) (u nu : String) :
    1 ≤ (generateArtistProfile g u nu).genres.length ∧
    (generateArtistProfile g u nu).genres.length ≤ 4 ∧
    (generateArtistProfile g u nu).genres.Nodup ∧
    ∃ pool ∈ genrePools, ∀ x ∈ (generateArtistProfile g u nu).genres, x ∈ pool := by
  have hg : (generateArtistProfile g u nu).genres
      = pickGenresLoop g (genrePools.getD (g 0 % 5) []) 5 10 0 [] := rfl
  have hidx : g 0 % 5 < genrePools.length := Nat.mod_lt _ (by decide)
  have hpoolmem : genrePools.getD (g 0 % 5) [] ∈ genrePools := by
    rw [List.getD_eq_getElem _ _ hidx]
    exact List.getElem_mem hidx
  have hpoolne : genrePools.getD (g 0 % 5) [] ≠ [] := by
    have hall : ∀ p ∈ genrePools, p ≠ [] := by decide
    exact hall _ hpoolmem
  refine ⟨?_, ?_, ?_, ?_⟩
  · rw [hg]
    exact pickGenresLoop_start_ge_one g _ 5 10 (by omega)
  · rw [hg]
    have h := pickGenresLoop_len_le g (genrePools.getD (g 0 % 5) []) 5 10 0 []
    simpa using h
  · rw [hg]
    exact pickGenresLoop_nodup g _ 5 10 0 [] List.nodup_nil
  · refine ⟨genrePools.getD (g 0 % 5) [], hpoolmem, ?_⟩
    intro x hx
    rw [hg] at hx
    rcases pickGenresLoop_mem g _ hpoolne 5 10 0 [] x hx with h | h
    · simp at h
    · exact h

/-- C9 witness: the amended bounds at a concrete generator run. -/
theorem c9_witness :
    1 ≤ (generateArtistProfile gZero "nova" "nova").genres.length ∧
    (generateArtistProfile gZero "nova" "nova").genres.length ≤ 4 := by
  have h := c9_genre_bounds gZero "nova" "nova"
  exact ⟨h.1, h.2.1⟩

/-- C5: when the normalized query matches no dataset key exactly but some key is
within edit distance 2, the first such key in dataset iteration order is
substituted: the answer is `exists: true` with that key's record and a `note`
containing the original query string and the substituted profile's name. -/
theorem c5_close_match_substitution (g : Rng) (u k : String) (r : CuratedRecord)
    (rest : List String)
    (hmiss : lookupProfile (spotifyAliasedName u) = none)
    (hclose : spotifyCloseMatches u = k :: rest)
    (hk : lookupProfile k = some r) :
    spotifyResolve g u =
      .ok ⟨true, .value (curatedResponseProfile k r (some (closeNote u r.name)))⟩ ∧
    occursIn u.data (closeNote u r.name).data = true ∧
    occursIn r.name.data (closeNote u r.name).data = true := by
  refine ⟨?_, ?_, ?_⟩
  · have hstep : spotifyResolve g u =
        match lookupProfile k with
        | some profile =>
            .ok ⟨true, .value (curatedResponseProfile k profile (some (closeNote u profile.name)))⟩
        | none => .ok ⟨false, .omitted⟩ := by
      unfold spotifyResolve
      rw [hmiss, hclose]
    rw [hstep, hk]
  · have h := occursIn_append_middle "Exact match '".data u.data
      ("' not found, showing results for '" ++ r.name ++ "' instead.").data
    simpa [closeNote, String.data_append, List.append_assoc] using h
  · have h := occursIn_append_middle
      ("Exact match '" ++ u ++ "' not found, showing results for '").data r.name.data
      "' instead.".data
    simpa [closeNote, String.data_append, List.append_assoc] using h

def adeleRecord : CuratedRecord :=
  { name := "Adele", followers := 49523685, popularity := 94,
    monthly_listeners := some 55841263, type := "artist",
    genres := ["british soul", "pop", "pop soul", "uk pop"] }

/-- C5 witness: querying `"adel"` (distance 1 from `"adele"`) substitutes
Adele's record and attaches the note. -/
theorem c5_witness :
    spotifyResolve gZero "adel" =
      .ok ⟨true, .value (curatedResponseProfile "adele" adeleRecord
        (some (closeNote "adel" adeleRecord.name)))⟩ ∧
    occursIn "adel".data (closeNote "adel" adeleRecord.name).data = true ∧
    occursIn adeleRecord.name.data (closeNote "adel" adeleRecord.name).data = true := by
  exact c5_close_match_substitution gZero "adel" "adele" adeleRecord []
    (by decide) (by decide) (by decide)

/-- C8: the Spotify fallback dispatch policy — artist shape exactly when
`length(username) > 3` and no `/\d{3,}/` match; otherwise listener shape when
`length(username) ≥ 3` and no space character; otherwise `exists: false`; in
particular querying `"12"` answers `exists: false`. -/
theorem c8_fallback_dispatch (g : Rng) (u : String) :
    (3 < u.length → hasDigitRun3 u.data = false →
      spotifyFallback g u =
        .ok ⟨true, .value (generateArtistProfile g u (spotifyAliasedName u))⟩ ∧
      (generateArtistProfile g u (spotifyAliasedName u)).type = some "artist" ∧
      (generateArtistProfile g u (spotifyAliasedName u)).simulated = true) ∧
    (¬(3 < u.length ∧ hasDigitRun3 u.data = false) → 3 ≤ u.length →
      u.data.contains ' ' = false →
      spotifyFallback g u =
        .ok ⟨true, .value (generateUserProfile g u (spotifyAliasedName u))⟩ ∧
      (generateUserProfile g u (spotifyAliasedName u)).type = some "user" ∧
      (generateUserProfile g u (spotifyAliasedName u)).simulated = true) ∧
    (¬(3 < u.length ∧ hasDigitRun3 u.data = false) →
      ¬(3 ≤ u.length ∧ u.data.contains ' ' = false) →
      spotifyFallback g u = .ok ⟨false, .omitted⟩) ∧
    spotifyResolve g "12" = .ok ⟨false, .omitted⟩ := by
  have hartist : spotifyLikelyArtist u = true ↔ (3 < u.length ∧ hasDigitRun3 u.data = false) := by
    simp only [spotifyLikelyArtist, Bool.and_eq_true, decide_eq_true_eq, Bool.not_eq_true']
  have huser : spotifyIsLikelyUser u = true ↔ (3 ≤ u.length ∧ u.data.contains ' ' = false) := by
    simp only [spotifyIsLikelyUser, Bool.and_eq_true, decide_eq_true_eq, Bool.not_eq_true']
  refine ⟨?_, ?_, ?_, ?_⟩
  · intro h1 h2
    refine ⟨?_, rfl, rfl⟩
    unfold spotifyFallback
    rw [if_pos (hartist.mpr ⟨h1, h2⟩)]
  · intro hn h1 h2
    cases hb : spotifyLikelyArtist u with
    | true => exact absurd (hartist.mp hb) hn
    | false =>
        refine ⟨?_, rfl, rfl⟩
        unfold spotifyFallback
        rw [if_neg (by simp [hb]), if_pos (huser.mpr ⟨h1, h2⟩)]
  · intro hn1 hn2
    cases hb : spotifyLikelyArtist u with
    | true => exact absurd (hartist.mp hb) hn1
    | false =>
        cases hu : spotifyIsLikelyUser u with
        | true => exact absurd (huser.mp hu) hn2
        | false =>
            unfold spotifyFallback
            rw [if_neg (by simp [hb]), if_neg (by simp [hu])]
  · unfold spotifyResolve
    rw [show lookupProfile (spotifyAliasedName "12") = none from by decide,
      show spotifyCloseMatches "12" = [] from by decide]
    unfold spotifyFallback
    rw [if_neg (by decide : ¬ spotifyLikelyArtist "12" = true),
      if_neg (by decide : ¬ spotifyIsLikelyUser "12" = true)]

/-- C8 witness: the artist branch of the dispatch at a concrete username. -/
theorem c8_witness :
    spotifyFallback gZero "nova" =
      .ok ⟨true, .value (generateArtistProfile gZero "nova" (spotifyAliasedName "nova"))⟩ ∧
    (generateArtistProfile gZero "nova" (spotifyAliasedName "nova")).type = some "artist" := by
  have h := (c8_fallback_dispatch gZero "nova").1 (by decide) (by decide)
  exact ⟨h.1, h.2.1⟩
